import Mathlib

/-!
Shallow embedding of `src/image_data_validator.py` (class `ImageDataValidator`).

Modelling conventions:

* A file system is a finite association of directory paths to their top-level
  listings.  A listing entry carries its name, whether it is a regular file,
  whether opening it for reading succeeds (`readable`), and its byte content.
* The external image library (PIL) is abstracted by `Env.decode`, a function
  from byte content to an optional `ImageInfo` (`none` models an
  `IOError`/`SyntaxError` raised by `Image.open`).  `ImageInfo` records the
  decoded format name, pixel size, the optional EXIF mapping returned by
  `img._getexif()` (`none` models Python `None`) and whether `img.verify()`
  raises no error.
* `hashlib.md5(...).hexdigest()` of the full byte content is abstracted by
  `Env.md5`; the 4096-byte chunking of the source consumes the whole file, so
  the hash is a function of the full content.
* Machine integers do not occur; all counts are `Nat`.
* Python exceptions are modelled with `Except PyErr`; an exception that the
  source catches and *returns* (rather than raises) appears in an ordinary
  result value, an uncaught exception is `Except.error`.
-/

namespace ImgVal

/-- Decoded-image abstraction of `PIL.Image` for one opened file: the format
name reported by the decoder, pixel width and height, the optional EXIF
dictionary returned by `img._getexif()` (`none` models Python `None`), and
whether `img.verify()` succeeds. -/
structure ImageInfo where
  format : String
  width : Nat
  height : Nat
  exif : Option (List (Nat × String))
  verifies : Bool
deriving DecidableEq

/-- One entry of a directory listing: its name, whether it is a regular file,
whether opening it for byte reading succeeds, and its byte content (only
meaningful for files). -/
structure Entry where
  name : String
  isFile : Bool
  readable : Bool
  content : List Nat
deriving DecidableEq

/-- The external-library environment: the content hash function (modelling
`hashlib.md5(...).hexdigest()` over the full file bytes) and the image decoder
(modelling `PIL.Image.open`; `none` is a raised `IOError`/`SyntaxError`). -/
structure Env where
  md5 : List Nat → String
  decode : List Nat → Option ImageInfo

/-- The file system visible to the validator: existing directories with their
top-level listings, plus paths that exist but are not directories. -/
structure FileSystem where
  dirs : List (String × List Entry)
  nonDirs : List String

/-- Python exceptions that can propagate out of the embedded code. -/
inductive PyErr where
  | ioError
  | valueError (msg : String)
  | indexError
deriving DecidableEq

/-- Lookup in a Python `dict` modelled as an insertion-ordered association
list (first binding of a key wins; keys are kept unique by `dictInsert`). -/
def dictLookup {α : Type} : List (String × α) → String → Option α
  | [], _ => none
  | (k1, v1) :: t, k => if k1 = k then some v1 else dictLookup t k

/-- Python `dict` assignment `m[k] = v`: replaces the value in place if the
key is present, otherwise appends the new binding at the end. -/
def dictInsert {α : Type} : List (String × α) → String → α → List (String × α)
  | [], k, v => [(k, v)]
  | (k1, v1) :: t, k, v =>
    if k1 = k then (k, v) :: t else (k1, v1) :: dictInsert t k v

/-- Model of Python `str.lower()` (character-wise lowercasing). -/
def pyLower (s : String) : String :=
  String.mk (s.data.map Char.toLower)

/-- Helper for `splitSlash`: splits a character list at every slash,
accumulating the current (reversed) segment. -/
def splitSlashAux : List Char → List Char → List String
  | [], acc => [String.mk acc.reverse]
  | c :: cs, acc =>
    if c = '/' then String.mk acc.reverse :: splitSlashAux cs []
    else splitSlashAux cs (c :: acc)

/-- Model of Python `str.split('/')`: the list of segments between slashes
(`""` yields `[""]`, adjacent slashes yield empty segments). -/
def splitSlash (s : String) : List String :=
  splitSlashAux s.data []

/-- Model of `os.path.join(directory, name)` for listing names (which contain
no path separator and no leading slash). -/
def pyJoin (directory name : String) : String :=
  if directory = "" then name
  else if directory.data.getLast? = some '/' then directory ++ name
  else directory ++ "/" ++ name

/-- Model of `os.path.basename`: the part after the last slash. -/
def basename (p : String) : String :=
  (splitSlash p).getLastD ""

/-- The second-to-last element of a list, i.e. Python index `[-2]` when the
list has at least two elements. -/
def secondToLast (l : List String) : String :=
  l.getD (l.length - 2) ""

/-- Python negative indexing `l[-2]`: `some` of the second-to-last element
when it exists, `none` models a raised `IndexError`. -/
def pyIndexNeg2 (l : List String) : Option String :=
  if 2 ≤ l.length then some (secondToLast l) else none

/-- Model of `os.stat(path).st_size`: the byte length for a regular file; a
directory entry reports the conventional positive block size. -/
def fileSize (e : Entry) : Nat :=
  if e.isFile then e.content.length else 4096

/-- Model of `PIL.Image.open(path)` on the entry denoted by the path: only a
readable regular file can decode; `none` is a raised `IOError`. -/
def openImage (env : Env) (e : Entry) : Option ImageInfo :=
  if e.isFile && e.readable then env.decode e.content else none

/-- An inconsistency record `{file_path, error, issue}` appended to
`self.inconsistencies`. -/
structure IncRecord where
  file_path : String
  error : String
  issue : String
deriving DecidableEq

/-- A synthesized-metadata record `{image_name, width, height, class}`
appended to `self.dimensions`. -/
structure DimRecord where
  image_name : String
  width : Nat
  height : Nat
  «class» : String
deriving DecidableEq

/-- A duplicate record `{image_name, class, duplicate_of}` appended to
`self.duplicates`. -/
structure DupRecord where
  image_name : String
  «class» : String
  duplicate_of : String
deriving DecidableEq

/-- Result of `check_metadata`: either the Python tuple `(True, exif)` or a
plain boolean (`False` in the source). -/
inductive CheckMetadataResult where
  | tuple (b : Bool) (exif : List (Nat × String))
  | boolVal (b : Bool)
deriving DecidableEq

/-- Python truthiness of a `check_metadata` result: a (nonempty) tuple is
always truthy; a boolean is itself. -/
def truthy : CheckMetadataResult → Bool
  | CheckMetadataResult.tuple _ _ => true
  | CheckMetadataResult.boolVal b => b

/-- Python equality comparison of a `check_metadata` result against `True`:
a tuple never equals `True`; a boolean equals `True` iff it is `True`. -/
def pyEqTrue : CheckMetadataResult → Bool
  | CheckMetadataResult.tuple _ _ => false
  | CheckMetadataResult.boolVal b => b

/-- Constructor arguments of `ImageDataValidator`, stored as
`self.images_dir`, `self.ver_width`, `self.ver_height`,
`self.ver_extensions`. -/
structure Config where
  images_dir : List String
  ver_width : Nat
  ver_height : Nat
  ver_extensions : List String

/-- The mutable per-scan state of the validator object: `self.sizes`,
`self.images_hashes`, `self.duplicates`, `self.inconsistencies`,
`self.dimensions`, and the local `images` mapping returned by
`_load_images`. -/
structure ValidatorState where
  sizes : List (String × Nat)
  images_hashes : List (String × String)
  duplicates : List DupRecord
  inconsistencies : List IncRecord
  dimensions : List DimRecord
  images : List (String × String)
deriving DecidableEq

/-- The state of a freshly constructed validator before `_load_images` runs. -/
def initState : ValidatorState :=
  { sizes := [], images_hashes := [], duplicates := [], inconsistencies := [],
    dimensions := [], images := [] }

/-- `check_extension`: opens the image and tests whether the *decoded format
name*, lowercased, is a member of the configured list; a raised `IOError` is
caught and yields `False`. -/
def check_extension (env : Env) (e : Entry) (type_extension : List String) : Bool :=
  match openImage env e with
  | some img => type_extension.contains (pyLower img.format)
  | none => false

/-- `check_quality`: `False` for a zero-size file, otherwise opens the image
and runs `img.verify()`; any raised `IOError`/`SyntaxError` is caught and
yields `False`. -/
def check_quality (env : Env) (e : Entry) : Bool :=
  let filesize := fileSize e
  if filesize = 0 then false
  else
    match openImage env e with
    | some img => img.verifies
    | none => false

/-- `check_metadata`: returns the tuple `(True, exif)` when `img._getexif()`
is not `None`, and the plain boolean `False` when the EXIF block is absent or
the image cannot be opened. -/
def check_metadata (env : Env) (e : Entry) : CheckMetadataResult :=
  match openImage env e with
  | some img =>
    match img.exif with
    | some exifData => CheckMetadataResult.tuple true exifData
    | none => CheckMetadataResult.boolVal false
  | none => CheckMetadataResult.boolVal false

/-- `check_dimension`: opens the image and compares its pixel size with the
expected width and height; decode failure yields `False`. -/
def check_dimension (env : Env) (e : Entry) (width height : Nat) : Bool :=
  match openImage env e with
  | some img => img.width = width && img.height = height
  | none => false

/-- The value produced by a non-raising run of `create_metadata`: the new
`self.dimensions` list and the value returned by the method (`none` for
Python `None`, `some err` for a caught-and-returned decode error). -/
def cmOut (env : Env) (file_path : String) (e : Entry) (dimensions : List DimRecord) :
    List DimRecord × Option PyErr :=
  match openImage env e with
  | some img =>
    (dimensions ++ [{ image_name := basename file_path, width := img.width,
                      height := img.height,
                      «class» := secondToLast (splitSlash file_path) }], none)
  | none => (dimensions, some PyErr.ioError)

/-- `create_metadata`: opens the image and appends one dimension record whose
`class` is `file_path.split('/')[-2]`; a decode error is caught and returned
as a value, but an `IndexError` from the negative index (path with fewer than
two segments) propagates. -/
def create_metadata (env : Env) (file_path : String) (e : Entry)
    (dimensions : List DimRecord) : Except PyErr (List DimRecord × Option PyErr) :=
  match openImage env e with
  | some img =>
    match pyIndexNeg2 (splitSlash file_path) with
    | some cls =>
      Except.ok (dimensions ++ [{ image_name := basename file_path, width := img.width,
                                  height := img.height, «class» := cls }], none)
    | none => Except.error PyErr.indexError
  | none => Except.ok (dimensions, some PyErr.ioError)

/-- `__calculate_md5`: hash of the full byte content; opening a non-file or an
unreadable path raises an `IOError`-family exception. -/
def calculate_md5 (env : Env) (e : Entry) : Except PyErr String :=
  if e.isFile && e.readable then Except.ok (env.md5 e.content)
  else Except.error PyErr.ioError

/-- The duplicate-detection state: `self.images_hashes` and
`self.duplicates`. -/
structure DupState where
  images_hashes : List (String × String)
  duplicates : List DupRecord
deriving DecidableEq

/-- `find_duplicate_images`: hashes the file; on a hash already present in the
index, appends one duplicate record carrying the first-seen name; on a fresh
hash, inserts `hash -> file_name`.  Any exception from hashing is caught and
returned as the second component (`self` state unchanged). -/
def find_duplicate_images (env : Env) (e : Entry) (file_name class_name : String)
    (st : DupState) : DupState × Option PyErr :=
  match calculate_md5 env e with
  | Except.error ex => (st, some ex)
  | Except.ok image_hash =>
    match dictLookup st.images_hashes image_hash with
    | some firstName =>
      ({ st with duplicates := st.duplicates ++
          [{ image_name := file_name, «class» := class_name, duplicate_of := firstName }] },
       none)
    | none =>
      ({ st with images_hashes := dictInsert st.images_hashes image_hash file_name },
       none)

/-- `__check_directory_file`: raises `ValueError` for a missing path or a
non-directory path, otherwise reports whether the directory contains at least
one regular file. -/
def check_directory_file (fs : FileSystem) (directory : String) : Except PyErr Bool :=
  match dictLookup fs.dirs directory with
  | some entries => Except.ok (entries.any (fun f => f.isFile))
  | none =>
    if fs.nonDirs.contains directory then
      Except.error (PyErr.valueError ("Path is not a directory: " ++ directory))
    else
      Except.error (PyErr.valueError ("Directory does not exist: " ++ directory))

/-- Model of `os.listdir(directory)`; only evaluated after
`__check_directory_file` has established that the directory exists. -/
def listdir (fs : FileSystem) (directory : String) : List Entry :=
  (dictLookup fs.dirs directory).getD []

/-- The body of the per-file loop of `_load_images`: the four checks in source
order with their inconsistency records, metadata synthesis on a failed
metadata check, unconditional insertion into the `images` mapping, and
duplicate registration (whose returned error is discarded). -/
def processFile (env : Env) (cfg : Config) (directory : String) (e : Entry)
    (st : ValidatorState) : Except PyErr ValidatorState :=
  let path := pyJoin directory e.name
  let class_name := directory
  let st1 :=
    if check_extension env e cfg.ver_extensions then st
    else { st with inconsistencies := st.inconsistencies ++
            [{ file_path := path, error := "Invalid extension",
               issue := "Extension check failed" }] }
  let st2 :=
    if check_quality env e then st1
    else { st1 with inconsistencies := st1.inconsistencies ++
            [{ file_path := path, error := "Corrupted or empty file",
               issue := "Quality check failed" }] }
  let step3 : Except PyErr ValidatorState :=
    if truthy (check_metadata env e) then Except.ok st2
    else
      let st2' : ValidatorState := { st2 with inconsistencies := st2.inconsistencies ++
            [{ file_path := path, error := "No metadata",
               issue := "Metadata check failed" }] }
      match create_metadata env path e st2'.dimensions with
      | Except.ok r => Except.ok { st2' with dimensions := r.1 }
      | Except.error ex => Except.error ex
  Except.map
    (fun st3 : ValidatorState =>
      let st4 :=
        if check_dimension env e cfg.ver_width cfg.ver_height then st3
        else { st3 with inconsistencies := st3.inconsistencies ++
                [{ file_path := path, error := "Dimension mismatch",
                   issue := "Dimension check failed" }] }
      let st5 := { st4 with images := dictInsert st4.images path e.name }
      let r := find_duplicate_images env e e.name class_name
                 { images_hashes := st5.images_hashes, duplicates := st5.duplicates }
      { st5 with images_hashes := r.1.images_hashes, duplicates := r.1.duplicates })
    step3

/-- The per-directory part of `_load_images`: validates the directory, and if
it contains at least one regular file, records the raw listing length in
`self.sizes` and runs the per-file loop over the full listing. -/
def processDir (env : Env) (fs : FileSystem) (cfg : Config)
    (st : ValidatorState) (directory : String) : Except PyErr ValidatorState :=
  match check_directory_file fs directory with
  | Except.error ex => Except.error ex
  | Except.ok hasFile =>
    if hasFile then
      let entries := listdir fs directory
      let st' := { st with sizes := dictInsert st.sizes directory entries.length }
      entries.foldlM (fun s e0 => processFile env cfg directory e0 s) st'
    else
      Except.ok st

/-- `_load_images`, i.e. the whole construction-time scan: folds
`processDir` over the configured directories starting from the fresh state. -/
def load_images (env : Env) (fs : FileSystem) (cfg : Config) :
    Except PyErr ValidatorState :=
  cfg.images_dir.foldlM (fun st d => processDir env fs cfg st d) initState

/-- A sequence of `find_duplicate_images` registrations (entry, file name,
class label), as performed across a scan; returned errors are discarded as in
`_load_images`. -/
def registerAll (env : Env) (items : List (Entry × String × String))
    (st : DupState) : DupState :=
  items.foldl (fun s i => (find_duplicate_images env i.1 i.2.1 i.2.2 s).1) st

/-- Reports whether a scan result is a raised `ValueError` (the configuration
error of `__check_directory_file`). -/
def raisesValueError : Except PyErr ValidatorState → Bool
  | Except.error (PyErr.valueError _) => true
  | _ => false

/-- A concrete hash function for witnesses (any function of the content is a
valid instantiation of the abstract digest). -/
def md5W : List Nat → String := fun c => String.mk (List.replicate c.length 'h')

/-- A concrete decoded image for witnesses: a well-formed JPEG with EXIF. -/
def imgGood : ImageInfo :=
  { format := "JPEG", width := 224, height := 224,
    exif := some [(306, "2024")], verifies := true }

/-- A concrete decoded image for witnesses: a PNG without EXIF, 10 by 20. -/
def imgNoMeta : ImageInfo :=
  { format := "PNG", width := 10, height := 20, exif := none, verifies := true }

/-- A concrete decoder for witnesses. -/
def decodeW : List Nat → Option ImageInfo := fun c =>
  if c = [1, 2] then some imgGood
  else if c = [3] then some imgNoMeta
  else none

/-- The concrete environment used by witnesses. -/
def envW : Env := { md5 := md5W, decode := decodeW }

/-- A well-formed JPEG file entry. -/
def eGood : Entry := { name := "a.jpg", isFile := true, readable := true, content := [1, 2] }

/-- A second file entry with byte-identical content to `eGood`. -/
def eGood2 : Entry := { name := "b.jpg", isFile := true, readable := true, content := [1, 2] }

/-- A PNG file entry lacking EXIF metadata. -/
def eNoMeta : Entry := { name := "c.png", isFile := true, readable := true, content := [3] }

/-- A subdirectory entry (not a regular file). -/
def eSub : Entry := { name := "sub", isFile := false, readable := true, content := [] }

/-- The concrete configuration used by witnesses. -/
def cfgW : Config :=
  { images_dir := ["data/test/Benign"], ver_width := 224, ver_height := 224,
    ver_extensions := ["jpeg"] }

/-- A file system with one existing, empty directory. -/
def fsC2 : FileSystem := { dirs := [("data/empty", [])], nonDirs := [] }

/-- The configuration that scans only the empty directory. -/
def cfgC2 : Config :=
  { images_dir := ["data/empty"], ver_width := 224, ver_height := 224,
    ver_extensions := ["jpeg"] }

end ImgVal

namespace ImgVal

theorem dictLookup_dictInsert_self {α : Type} (m : List (String × α)) (k : String) (v : α) :
    dictLookup (dictInsert m k v) k = some v := by
  induction m with
  | nil => simp [dictInsert, dictLookup]
  | cons a t ih =>
    obtain ⟨k1, v1⟩ := a
    by_cases h : k1 = k <;> simp [dictInsert, dictLookup, h, ih]

theorem dictLookup_dictInsert_ne {α : Type} (m : List (String × α)) (k k' : String) (v : α)
    (h : k' ≠ k) : dictLookup (dictInsert m k' v) k = dictLookup m k := by
  induction m with
  | nil => simp [dictInsert, dictLookup, h]
  | cons a t ih =>
    obtain ⟨k1, v1⟩ := a
    by_cases h1 : k1 = k' <;> by_cases h2 : k1 = k <;>
      simp_all [dictInsert, dictLookup]

theorem find_duplicate_preserves (env : Env) (e : Entry) (n c : String) (st : DupState)
    (h0 : String) (v : String) (h : dictLookup st.images_hashes h0 = some v) :
    dictLookup (find_duplicate_images env e n c st).1.images_hashes h0 = some v := by
  unfold find_duplicate_images
  cases hmd : calculate_md5 env e with
  | error ex => simpa using h
  | ok hsh =>
    dsimp only
    cases hl : dictLookup st.images_hashes hsh with
    | some firstName => simpa using h
    | none =>
      have hne : hsh ≠ h0 := by
        intro he; rw [he] at hl; rw [hl] at h; exact Option.noConfusion h
      simpa [dictLookup_dictInsert_ne _ _ _ _ hne] using h

theorem registerAll_preserves (env : Env) (items : List (Entry × String × String))
    (st : DupState) (h0 : String) (v : String)
    (h : dictLookup st.images_hashes h0 = some v) :
    dictLookup (registerAll env items st).images_hashes h0 = some v := by
  induction items generalizing st with
  | nil => simpa [registerAll] using h
  | cons i t ih =>
    have hstep := find_duplicate_preserves env i.1 i.2.1 i.2.2 st h0 v h
    simpa [registerAll] using ih _ hstep

theorem create_metadata_eq_cmOut (env : Env) (file_path : String) (e : Entry)
    (hseg : 2 ≤ (splitSlash file_path).length) (dimensions : List DimRecord) :
    create_metadata env file_path e dimensions =
      Except.ok (cmOut env file_path e dimensions) := by
  unfold create_metadata cmOut pyIndexNeg2
  cases ho : openImage env e <;> simp [hseg]

end ImgVal

namespace ImgVal

/-- The final state of a non-raising run of `processFile`, written as a total
function (the `IndexError` branch of `create_metadata` is replaced by `cmOut`,
valid whenever the joined path has at least two segments). -/
def pfOut (env : Env) (cfg : Config) (directory : String) (e : Entry)
    (st : ValidatorState) : ValidatorState :=
  let path := pyJoin directory e.name
  let st1 :=
    if check_extension env e cfg.ver_extensions then st
    else { st with inconsistencies := st.inconsistencies ++
            [{ file_path := path, error := "Invalid extension",
               issue := "Extension check failed" }] }
  let st2 :=
    if check_quality env e then st1
    else { st1 with inconsistencies := st1.inconsistencies ++
            [{ file_path := path, error := "Corrupted or empty file",
               issue := "Quality check failed" }] }
  let st3 :=
    if truthy (check_metadata env e) then st2
    else
      let st2' : ValidatorState := { st2 with inconsistencies := st2.inconsistencies ++
            [{ file_path := path, error := "No metadata",
               issue := "Metadata check failed" }] }
      { st2' with dimensions := (cmOut env path e st2'.dimensions).1 }
  let st4 :=
    if check_dimension env e cfg.ver_width cfg.ver_height then st3
    else { st3 with inconsistencies := st3.inconsistencies ++
            [{ file_path := path, error := "Dimension mismatch",
               issue := "Dimension check failed" }] }
  let st5 := { st4 with images := dictInsert st4.images path e.name }
  let r := find_duplicate_images env e e.name directory
             { images_hashes := st5.images_hashes, duplicates := st5.duplicates }
  { st5 with images_hashes := r.1.images_hashes, duplicates := r.1.duplicates }

theorem processFile_eq_pfOut (env : Env) (cfg : Config) (directory : String) (e : Entry)
    (st : ValidatorState)
    (hseg : 2 ≤ (splitSlash (pyJoin directory e.name)).length) :
    processFile env cfg directory e st = Except.ok (pfOut env cfg directory e st) := by
  unfold processFile pfOut
  cases ht : truthy (check_metadata env e) <;>
    simp [ht, create_metadata_eq_cmOut env _ e hseg, Except.map]

/-- C6: under the precondition that the configured list holds lowercase format
names, `check_extension` passes if and only if the file decodes and its
decoded format name is a case-insensitive member of the allowed set. -/
theorem C6_extension_case_insensitive (env : Env) (e : Entry) (exts : List String)
    (hlow : ∀ s ∈ exts, pyLower s = s) :
    check_extension env e exts = true ↔
      ∃ img, openImage env e = some img ∧ ∃ s ∈ exts, pyLower img.format = pyLower s := by
  unfold check_extension
  cases ho : openImage env e with
  | none => simp
  | some img =>
    constructor
    · intro hc
      have hmem : pyLower img.format ∈ exts := List.elem_iff.mp hc
      exact ⟨img, rfl, pyLower img.format, hmem, (hlow _ hmem).symm⟩
    · rintro ⟨img', himg', s, hs, heq⟩
      have himg : img' = img := by
        have := himg'.symm
        exact (Option.some.injEq _ _ ▸ this)
      subst himg
      have : pyLower img'.format ∈ exts := by
        rw [heq, hlow s hs]; exact hs
      exact List.elem_iff.mpr this

/-- Witness for C6 at a concrete JPEG file and the lowercase list. -/
theorem C6_extension_case_insensitive_witness :
    check_extension envW eGood ["jpeg"] = true :=
  (C6_extension_case_insensitive envW eGood ["jpeg"] (by decide)).mpr
    ⟨imgGood, rfl, "jpeg", by decide, by decide⟩

/-- C7: `check_metadata` returns the truthy tuple `(True, exif)` exactly when
the image opens and its EXIF block is present, and the plain boolean `False`
otherwise; the tuple result is truthy as a boolean test but an equality
comparison with `True` yields `False`. -/
theorem C7_metadata_tuple_truthiness (env : Env) (e : Entry) :
    (∀ img exifData, openImage env e = some img → img.exif = some exifData →
       check_metadata env e = CheckMetadataResult.tuple true exifData ∧
       truthy (check_metadata env e) = true ∧
       pyEqTrue (check_metadata env e) = false) ∧
    ((openImage env e).bind ImageInfo.exif = none →
       check_metadata env e = CheckMetadataResult.boolVal false ∧
       truthy (check_metadata env e) = false) := by
  constructor
  · intro img exifData himg hex
    simp [check_metadata, himg, hex, truthy, pyEqTrue]
  · intro h
    cases ho : openImage env e with
    | none => simp [check_metadata, ho, truthy]
    | some img =>
      rw [ho] at h
      simp only [Option.bind] at h
      simp [check_metadata, ho, h, truthy]

/-- Witness for C7 at a concrete JPEG file carrying EXIF data. -/
theorem C7_metadata_tuple_truthiness_witness :
    check_metadata envW eGood = CheckMetadataResult.tuple true [(306, "2024")] ∧
    truthy (check_metadata envW eGood) = true ∧
    pyEqTrue (check_metadata envW eGood) = false :=
  (C7_metadata_tuple_truthiness envW eGood).1 imgGood [(306, "2024")] rfl rfl

/-- C9: on a path with at least two segments, `create_metadata` appends, on
decode success, exactly one dimension record whose `class` is the
second-to-last path segment (the immediate parent directory component); on
decode failure it returns the error as a value and appends nothing. -/
theorem C9_create_metadata_record (env : Env) (p : String) (e : Entry)
    (dims : List DimRecord) (hseg : 2 ≤ (splitSlash p).length) :
    (∀ img, openImage env e = some img →
       create_metadata env p e dims = Except.ok
         (dims ++ [{ image_name := basename p, width := img.width, height := img.height,
                     «class» := secondToLast (splitSlash p) }], none)) ∧
    (openImage env e = none →
       create_metadata env p e dims = Except.ok (dims, some PyErr.ioError)) := by
  constructor
  · intro img himg
    simp [create_metadata, pyIndexNeg2, himg, hseg]
  · intro hnone
    simp [create_metadata, hnone]

/-- Witness for C9: a PNG without metadata at a concrete two-directory path
gets a record whose class is the parent directory name. -/
theorem C9_create_metadata_record_witness :
    create_metadata envW "data/test/Benign/c.png" eNoMeta [] = Except.ok
      ([{ image_name := "c.png", width := 10, height := 20, «class» := "Benign" }],
       none) :=
  (C9_create_metadata_record envW "data/test/Benign/c.png" eNoMeta [] (by decide)).1
    imgNoMeta rfl

/-- C8: when hashing raises an I/O failure, `find_duplicate_images` catches
the exception and returns it as a value, appends no duplicate record and
leaves the hash index unmodified. -/
theorem C8_hash_io_failure_swallowed (env : Env) (e : Entry) (n c : String)
    (st : DupState) (h : e.isFile = false ∨ e.readable = false) :
    find_duplicate_images env e n c st = (st, some PyErr.ioError) := by
  unfold find_duplicate_images calculate_md5
  rcases h with h | h <;> simp [h]

/-- Witness for C8 at a concrete non-file entry. -/
theorem C8_hash_io_failure_swallowed_witness :
    find_duplicate_images envW eSub "sub" "data/test/Benign"
        { images_hashes := [], duplicates := [] } =
      ({ images_hashes := [], duplicates := [] }, some PyErr.ioError) :=
  C8_hash_io_failure_swallowed envW eSub "sub" "data/test/Benign"
    { images_hashes := [], duplicates := [] } (Or.inl rfl)

/-- C10: a non-file listing entry is processed exactly like a file: all four
checks resolve to `False`, four inconsistency records are appended, its path
is inserted into the valid-images mapping, and the hashing failure of its
duplicate registration is swallowed with the hash index and duplicate list
unchanged. -/
theorem C10_nonfile_entries_processed (env : Env) (cfg : Config) (d : String)
    (e : Entry) (st : ValidatorState) (hnf : e.isFile = false) :
    check_extension env e cfg.ver_extensions = false ∧
    check_quality env e = false ∧
    truthy (check_metadata env e) = false ∧
    check_dimension env e cfg.ver_width cfg.ver_height = false ∧
    processFile env cfg d e st = Except.ok { st with
      inconsistencies := st.inconsistencies ++
        [{ file_path := pyJoin d e.name, error := "Invalid extension",
           issue := "Extension check failed" },
         { file_path := pyJoin d e.name, error := "Corrupted or empty file",
           issue := "Quality check failed" },
         { file_path := pyJoin d e.name, error := "No metadata",
           issue := "Metadata check failed" },
         { file_path := pyJoin d e.name, error := "Dimension mismatch",
           issue := "Dimension check failed" }],
      images := dictInsert st.images (pyJoin d e.name) e.name } := by
  have ho : openImage env e = none := by simp [openImage, hnf]
  refine ⟨by simp [check_extension, ho], ?_, by simp [check_metadata, ho, truthy],
          by simp [check_dimension, ho], ?_⟩
  · simp [check_quality, fileSize, hnf, ho]
  · simp [processFile, check_extension, check_quality, check_metadata, check_dimension,
          truthy, fileSize, hnf, ho, create_metadata, find_duplicate_images,
          calculate_md5, Except.map]

/-- Witness for C10 at a concrete subdirectory entry. -/
theorem C10_nonfile_entries_processed_witness :
    check_extension envW eSub cfgW.ver_extensions = false ∧
    check_quality envW eSub = false ∧
    truthy (check_metadata envW eSub) = false ∧
    check_dimension envW eSub cfgW.ver_width cfgW.ver_height = false ∧
    processFile envW cfgW "data/test/Benign" eSub initState = Except.ok { initState with
      inconsistencies :=
        [{ file_path := "data/test/Benign/sub", error := "Invalid extension",
           issue := "Extension check failed" },
         { file_path := "data/test/Benign/sub", error := "Corrupted or empty file",
           issue := "Quality check failed" },
         { file_path := "data/test/Benign/sub", error := "No metadata",
           issue := "Metadata check failed" },
         { file_path := "data/test/Benign/sub", error := "Dimension mismatch",
           issue := "Dimension check failed" }],
      images := [("data/test/Benign/sub", "sub")] } :=
  C10_nonfile_entries_processed envW cfgW "data/test/Benign" eSub initState rfl

/-- C1: once a first file with a given content hash has been registered under
name `n1`, then after any further registrations, registering a second file
with byte-identical content appends exactly one duplicate record whose
`duplicate_of` is `n1`, and the hash index entry for that hash still maps to
`n1`. -/
theorem C1_duplicate_registration (env : Env) (e1 e2 : Entry)
    (n1 cls1 n2 cls2 : String) (st0 : DupState)
    (mid : List (Entry × String × String)) (st1 stm : DupState)
    (hf1 : e1.isFile = true) (hr1 : e1.readable = true)
    (hf2 : e2.isFile = true) (hr2 : e2.readable = true)
    (hc : e2.content = e1.content)
    (habs : dictLookup st0.images_hashes (env.md5 e1.content) = none)
    (hst1 : st1 = (find_duplicate_images env e1 n1 cls1 st0).1)
    (hstm : stm = registerAll env mid st1) :
    (find_duplicate_images env e2 n2 cls2 stm).1.duplicates =
      stm.duplicates ++ [{ image_name := n2, «class» := cls2, duplicate_of := n1 }] ∧
    dictLookup (find_duplicate_images env e2 n2 cls2 stm).1.images_hashes
      (env.md5 e1.content) = some n1 := by
  have h1 : dictLookup st1.images_hashes (env.md5 e1.content) = some n1 := by
    subst hst1
    unfold find_duplicate_images calculate_md5
    simp [hf1, hr1, habs, dictLookup_dictInsert_self]
  have hm : dictLookup stm.images_hashes (env.md5 e1.content) = some n1 := by
    subst hstm; exact registerAll_preserves env mid st1 _ _ h1
  unfold find_duplicate_images calculate_md5
  simp [hf2, hr2, hc, hm]

/-- The duplicate-state after registering the first JPEG for the C1 witness. -/
def st1W : DupState :=
  (find_duplicate_images envW eGood "a.jpg" "data/test/Benign"
    { images_hashes := [], duplicates := [] }).1

/-- An intermediate registration between the two identical files of the C1
witness. -/
def midW : List (Entry × String × String) :=
  [(eNoMeta, "c.png", "data/test/Benign")]

/-- The duplicate-state after the intermediate registrations of the C1
witness. -/
def stmW : DupState := registerAll envW midW st1W

/-- Witness for C1 at two byte-identical files in two class directories with
an unrelated registration in between. -/
theorem C1_duplicate_registration_witness :
    (find_duplicate_images envW eGood2 "b.jpg" "data/train/Benign" stmW).1.duplicates =
      stmW.duplicates ++
        [{ image_name := "b.jpg", «class» := "data/train/Benign", duplicate_of := "a.jpg" }] ∧
    dictLookup (find_duplicate_images envW eGood2 "b.jpg" "data/train/Benign"
      stmW).1.images_hashes (envW.md5 eGood.content) = some "a.jpg" :=
  C1_duplicate_registration envW eGood eGood2 "a.jpg" "data/test/Benign" "b.jpg"
    "data/train/Benign" { images_hashes := [], duplicates := [] } midW st1W stmW
    rfl rfl rfl rfl rfl rfl rfl rfl

/-- Counterexample to C2 as stated: scanning a single existing, empty
directory completes without error, but the final Directory Size Map is empty,
so no entry of `0` is recorded for that directory. -/
theorem C2_counterexample :
    load_images envW fsC2 cfgC2 = Except.ok initState ∧ initState.sizes = [] :=
  ⟨rfl, rfl⟩

/-- C2 (amended): a configured directory that exists and contains zero files
contributes zero files to processing and raises no error, but no Directory
Size Map entry is recorded for it (the scan leaves the state untouched; size
entries are recorded only for directories containing at least one regular
file). -/
theorem C2_no_files_no_size_entry (env : Env) (fs : FileSystem) (cfg : Config)
    (st : ValidatorState) (d : String) (es : List Entry)
    (hdir : dictLookup fs.dirs d = some es)
    (hnofiles : ∀ e0 ∈ es, e0.isFile = false) :
    processDir env fs cfg st d = Except.ok st := by
  have hany : es.any (fun f => f.isFile) = false := by
    rw [List.any_eq_false]
    intro x hx
    simp [hnofiles x hx]
  unfold processDir check_directory_file
  simp [hdir, hany]

/-- Witness for the amended C2 at the concrete empty directory. -/
theorem C2_no_files_no_size_entry_witness :
    processDir envW fsC2 cfgC2 initState "data/empty" = Except.ok initState :=
  C2_no_files_no_size_entry envW fsC2 cfgC2 initState "data/empty" [] rfl
    (by intro e0 he0; simp at he0)

/-- C3: the four checks are evaluated in the fixed order extension, quality,
metadata, dimension; each failing check appends exactly one inconsistency
record with its designated error string, and no failure skips the later
checks. -/
theorem C3_checks_not_short_circuiting (env : Env) (cfg : Config) (d : String)
    (e : Entry) (st : ValidatorState)
    (hseg : 2 ≤ (splitSlash (pyJoin d e.name)).length) :
    Except.map ValidatorState.inconsistencies (processFile env cfg d e st) =
      Except.ok (st.inconsistencies
        ++ (if check_extension env e cfg.ver_extensions then []
            else [{ file_path := pyJoin d e.name, error := "Invalid extension",
                    issue := "Extension check failed" }])
        ++ (if check_quality env e then []
            else [{ file_path := pyJoin d e.name, error := "Corrupted or empty file",
                    issue := "Quality check failed" }])
        ++ (if truthy (check_metadata env e) then []
            else [{ file_path := pyJoin d e.name, error := "No metadata",
                    issue := "Metadata check failed" }])
        ++ (if check_dimension env e cfg.ver_width cfg.ver_height then []
            else [{ file_path := pyJoin d e.name, error := "Dimension mismatch",
                    issue := "Dimension check failed" }])) := by
  rw [processFile_eq_pfOut env cfg d e st hseg]
  unfold pfOut
  cases h1 : check_extension env e cfg.ver_extensions <;>
  cases h2 : check_quality env e <;>
  cases h3 : truthy (check_metadata env e) <;>
  cases h4 : check_dimension env e cfg.ver_width cfg.ver_height <;>
    simp [Except.map, h1, h2, h3, h4]

/-- Witness for C3 at a concrete PNG without metadata and with wrong
dimensions: the extension, metadata and dimension checks all record their
failures. -/
theorem C3_checks_not_short_circuiting_witness :
    Except.map ValidatorState.inconsistencies
        (processFile envW cfgW "data/test/Benign" eNoMeta initState) =
      Except.ok
        [{ file_path := "data/test/Benign/c.png", error := "Invalid extension",
           issue := "Extension check failed" },
         { file_path := "data/test/Benign/c.png", error := "No metadata",
           issue := "Metadata check failed" },
         { file_path := "data/test/Benign/c.png", error := "Dimension mismatch",
           issue := "Dimension check failed" }] :=
  C3_checks_not_short_circuiting envW cfgW "data/test/Benign" eNoMeta initState
    (by decide)

/-- C4: every scanned file is inserted into the valid-images mapping
(path to file name) no matter how many checks it failed. -/
theorem C4_images_mapping_unfiltered (env : Env) (cfg : Config) (d : String)
    (e : Entry) (st : ValidatorState)
    (hseg : 2 ≤ (splitSlash (pyJoin d e.name)).length) :
    Except.map (fun s => dictLookup s.images (pyJoin d e.name))
        (processFile env cfg d e st) =
      Except.ok (some e.name) := by
  rw [processFile_eq_pfOut env cfg d e st hseg]
  unfold pfOut
  cases h1 : check_extension env e cfg.ver_extensions <;>
  cases h2 : check_quality env e <;>
  cases h3 : truthy (check_metadata env e) <;>
  cases h4 : check_dimension env e cfg.ver_width cfg.ver_height <;>
    simp [Except.map, h1, h2, h3, h4, dictLookup_dictInsert_self]

/-- Witness for C4: the PNG that fails three of the four checks still lands
in the valid-images mapping. -/
theorem C4_images_mapping_unfiltered_witness :
    Except.map (fun s => dictLookup s.images (pyJoin "data/test/Benign" eNoMeta.name))
        (processFile envW cfgW "data/test/Benign" eNoMeta initState) =
      Except.ok (some "c.png") :=
  C4_images_mapping_unfiltered envW cfgW "data/test/Benign" eNoMeta initState
    (by decide)

theorem check_directory_file_error (fs : FileSystem) (d : String)
    (hbad : dictLookup fs.dirs d = none) :
    ∃ msg, check_directory_file fs d = Except.error (PyErr.valueError msg) := by
  unfold check_directory_file
  rw [hbad]
  by_cases h : d ∈ fs.nonDirs
  · exact ⟨"Path is not a directory: " ++ d, by simp [h]⟩
  · exact ⟨"Directory does not exist: " ++ d, by simp [h]⟩

theorem processFile_ok (env : Env) (cfg : Config) (d : String) (e : Entry)
    (st : ValidatorState) (hseg : 2 ≤ (splitSlash (pyJoin d e.name)).length) :
    ∃ st', processFile env cfg d e st = Except.ok st' :=
  ⟨pfOut env cfg d e st, processFile_eq_pfOut env cfg d e st hseg⟩

theorem foldl_processFile_ok (env : Env) (cfg : Config) (d : String) (es : List Entry)
    (hseg : ∀ e ∈ es, 2 ≤ (splitSlash (pyJoin d e.name)).length) (st : ValidatorState) :
    ∃ st', es.foldlM (fun s e0 => processFile env cfg d e0 s) st = Except.ok st' := by
  induction es generalizing st with
  | nil => exact ⟨st, rfl⟩
  | cons e0 t ih =>
    obtain ⟨st1, h1⟩ := processFile_ok env cfg d e0 st (hseg e0 (by simp))
    obtain ⟨st2, h2⟩ := ih (fun e he => hseg e (by simp [he])) st1
    refine ⟨st2, ?_⟩
    rw [List.foldlM_cons, h1]
    exact h2

theorem processDir_ok (env : Env) (fs : FileSystem) (cfg : Config)
    (st : ValidatorState) (d0 : String) (es : List Entry)
    (hd0 : dictLookup fs.dirs d0 = some es)
    (hseg : ∀ e ∈ listdir fs d0, 2 ≤ (splitSlash (pyJoin d0 e.name)).length) :
    ∃ st', processDir env fs cfg st d0 = Except.ok st' := by
  unfold processDir check_directory_file
  rw [hd0]
  dsimp only
  by_cases hany : es.any (fun f => f.isFile) = true
  · obtain ⟨st2, h2⟩ := foldl_processFile_ok env cfg d0 (listdir fs d0) hseg
      { st with sizes := dictInsert st.sizes d0 (listdir fs d0).length }
    exact ⟨st2, by simp [hany, h2]⟩
  · exact ⟨st, by simp [hany]⟩

theorem foldDirs_error (env : Env) (fs : FileSystem) (cfg : Config)
    (dirs : List String) (st : ValidatorState) (d : String)
    (hmem : d ∈ dirs) (hbad : dictLookup fs.dirs d = none)
    (hwf : ∀ d' ∈ dirs, ∀ e ∈ listdir fs d',
            2 ≤ (splitSlash (pyJoin d' e.name)).length) :
    ∃ msg, dirs.foldlM (fun s d0 => processDir env fs cfg s d0) st =
      Except.error (PyErr.valueError msg) := by
  induction dirs generalizing st with
  | nil => cases hmem
  | cons d0 t ih =>
    rw [List.foldlM_cons]
    cases hd0 : dictLookup fs.dirs d0 with
    | none =>
      obtain ⟨msg, hmsg⟩ := check_directory_file_error fs d0 hd0
      have hpd : processDir env fs cfg st d0 = Except.error (PyErr.valueError msg) := by
        unfold processDir
        rw [hmsg]
      rw [hpd]
      exact ⟨msg, rfl⟩
    | some es =>
      have hmem' : d ∈ t := by
        rcases List.mem_cons.mp hmem with he | ht
        · subst he; rw [hd0] at hbad; exact Option.noConfusion hbad
        · exact ht
      obtain ⟨st1, h1⟩ := processDir_ok env fs cfg st d0 es hd0
        (hwf d0 (List.mem_cons_self d0 t))
      rw [h1]
      exact ih st1 hmem' (fun d' hd' => hwf d' (List.mem_cons_of_mem d0 hd'))

/-- C5: a configured path that does not exist or is not a directory makes the
construction-time scan raise the configuration `ValueError` of
`__check_directory_file`, terminating construction instead of producing a
per-file issue record. -/
theorem C5_invalid_directory_raises (env : Env) (fs : FileSystem) (cfg : Config)
    (d : String) (hmem : d ∈ cfg.images_dir)
    (hbad : dictLookup fs.dirs d = none)
    (hwf : ∀ d' ∈ cfg.images_dir, ∀ e ∈ listdir fs d',
            2 ≤ (splitSlash (pyJoin d' e.name)).length) :
    raisesValueError (load_images env fs cfg) = true := by
  obtain ⟨msg, hmsg⟩ :=
    foldDirs_error env fs cfg cfg.images_dir initState d hmem hbad hwf
  simp [load_images, hmsg, raisesValueError]

/-- File system for the C5 witness: one valid class directory and one path
that exists but is not a directory. -/
def fsC5 : FileSystem :=
  { dirs := [("data/test/Benign", [eGood])], nonDirs := ["notadir.txt"] }

/-- Configuration for the C5 witness, listing the non-directory path. -/
def cfgC5 : Config :=
  { images_dir := ["data/test/Benign", "notadir.txt"], ver_width := 224,
    ver_height := 224, ver_extensions := ["jpeg"] }

/-- Witness for C5: the scan over a configuration containing a non-directory
path raises the configuration `ValueError`. -/
theorem C5_invalid_directory_raises_witness :
    raisesValueError (load_images envW fsC5 cfgC5) = true :=
  C5_invalid_directory_raises envW fsC5 cfgC5 "notadir.txt" (by decide) rfl
    (by decide)

end ImgVal
